import Mathlib

/-!
Verification development for the WeatherPy pipeline
(src/WeatherProject_Done.py): coordinate sampling, nearest-city
resolution with in-memory deduplication, one HTTP fetch per city with a
status-code filter, response-to-row mapping, CSV write and re-read, and
scatter plotting.

The embedding is shallow: JSON values are an inductive tree whose
numbers are rationals, the network is a function from URL strings to
responses, the external nearest-city lookup is a function parameter, and
the pandas CSV behaviour used by the script (to_csv with an index
column, read_csv) is modelled by an explicit quote-aware renderer and
parser over character lists.
-/

/-- A parsed JSON value, as returned by response.json(). Numbers are
modelled as rationals. -/
inductive JValue where
  | str (s : String)
  | num (q : ℚ)
  | obj (fields : List (String × JValue))
  | arr (elems : List JValue)

/-- Python dict lookup by key; response objects have unique keys, the
first binding wins. -/
def lookup : List (String × JValue) → String → Option JValue
  | [], _ => none
  | (k, v) :: rest, key => if k = key then some v else lookup rest key

/-- Python subscript response[k]: a KeyError (missing key) or TypeError
(subscripting a non-dict) is modelled as none. -/
def idx : JValue → String → Option JValue
  | .obj fields, key => lookup fields key
  | _, _ => none

/-- Python nested subscript response[k1][k2], as a single composite
lookup. -/
def idx2 (v : JValue) (k1 k2 : String) : Option JValue :=
  (idx v k1).bind fun w => idx w k2

/-- One row of the output table: the nine values extracted by
get_row_from_response (the Python dict literal it returns). -/
structure WeatherRow where
  city : JValue
  cloudiness : JValue
  country : JValue
  date : JValue
  humidity : JValue
  lat : JValue
  lng : JValue
  max_temp : JValue
  wind_speed : JValue

/-- Embedding of get_row_from_response: performs the nine dictionary
accesses in source order; any failing access (missing key or non-dict
subscript) aborts the mapping, so no partial record is ever built. -/
def get_row_from_response (response : JValue) : Option WeatherRow :=
  (idx response "name").bind fun city =>
  (idx2 response "clouds" "all").bind fun cloudiness =>
  (idx2 response "sys" "country").bind fun country =>
  (idx response "dt").bind fun date =>
  (idx2 response "main" "humidity").bind fun humidity =>
  (idx2 response "coord" "lat").bind fun lat =>
  (idx2 response "coord" "lon").bind fun lng =>
  (idx2 response "main" "temp_max").bind fun max_temp =>
  (idx2 response "wind" "speed").bind fun wind_speed =>
  some ⟨city, cloudiness, country, date, humidity, lat, lng, max_temp, wind_speed⟩

/-- The same bind chain, abstracted over the results of the nine
lookups; get_row_from_response factors through it definitionally. -/
def mkRowFromLookups (o1 o2 o3 o4 o5 o6 o7 o8 o9 : Option JValue) :
    Option WeatherRow :=
  o1.bind fun city =>
  o2.bind fun cloudiness =>
  o3.bind fun country =>
  o4.bind fun date =>
  o5.bind fun humidity =>
  o6.bind fun lat =>
  o7.bind fun lng =>
  o8.bind fun max_temp =>
  o9.bind fun wind_speed =>
  some ⟨city, cloudiness, country, date, humidity, lat, lng, max_temp, wind_speed⟩

/-- The synthetic weather-API response from the spec scenario. -/
def cairnsResponse : JValue :=
  .obj [("name", .str "Cairns"),
        ("clouds", .obj [("all", .num 75)]),
        ("sys", .obj [("country", .str "AU")]),
        ("dt", .num 1435658272),
        ("main", .obj [("humidity", .num 83), ("temp_max", .num 295.37)]),
        ("coord", .obj [("lat", .num (-16.92)), ("lon", .num 145.77)]),
        ("wind", .obj [("speed", .num 5.1)])]

/-- The record the spec scenario expects for cairnsResponse. -/
def cairnsRow : WeatherRow :=
  ⟨.str "Cairns", .num 75, .str "AU", .num 1435658272, .num 83,
   .num (-16.92), .num 145.77, .num 295.37, .num 5.1⟩

/-- The Cairns response with extra fields the mapper never reads
(weather array, base, cod, id), as in the API documentation comment. -/
def cairnsResponseExtra : JValue :=
  .obj [("name", .str "Cairns"),
        ("clouds", .obj [("all", .num 75), ("density", .num 3)]),
        ("sys", .obj [("country", .str "AU"), ("sunrise", .num 1435610796)]),
        ("dt", .num 1435658272),
        ("main", .obj [("humidity", .num 83), ("temp_max", .num 295.37),
                       ("pressure", .num 1019)]),
        ("coord", .obj [("lat", .num (-16.92)), ("lon", .num 145.77)]),
        ("wind", .obj [("speed", .num 5.1), ("deg", .num 150)]),
        ("base", .str "cmc stations"),
        ("weather", .arr [.obj [("id", .num 803)]]),
        ("cod", .num 200),
        ("id", .num 2172797)]

/-- An HTTP response as seen through the requests library: a numeric
status code, and the result of .json() on the body (none when the body
is not well-formed JSON, in which case .json() raises). -/
structure HttpResponse where
  status_code : Nat
  jsonBody : Option JValue

/-- Embedding of city_name.replace applied to a single-character
pattern: every space becomes a plus sign. -/
def encode_city_name (s : String) : String :=
  String.mk (s.data.map fun c => if c = ' ' then '+' else c)

/-- The fixed part of the request URL, up to the API key. -/
def urlBase : String := "http://api.openweathermap.org/data/2.5/weather?appid="

/-- The URL built by get_city_data's f-string. -/
def build_url (api_key city_name : String) : String :=
  urlBase ++ api_key ++ "&q=" ++ encode_city_name city_name

/-- Embedding of get_city_data: issue the request, return none on a
non-200 status, the parsed body on 200; a 200 response whose body fails
to parse raises (modelled as an error that aborts the script). -/
def get_city_data (net : String → HttpResponse) (api_key city_name : String) :
    Except String (Option JValue) :=
  let response := net (build_url api_key city_name)
  if response.status_code ≠ 200 then .ok none
  else
    match response.jsonBody with
    | some j => .ok (some j)
    | none => .error "JSONDecodeError"

/-- Embedding of the fetch loop: one get_city_data call per city in
order; a none result is skipped, a some result is appended, an error
aborts the run. -/
def fetchLoop (net : String → HttpResponse) (api_key : String) :
    List String → Except String (List JValue)
  | [] => .ok []
  | city :: rest =>
    match get_city_data net api_key city with
    | .error e => .error e
    | .ok none => fetchLoop net api_key rest
    | .ok (some r) => (fetchLoop net api_key rest).map fun rs => r :: rs

/-- A concrete two-city network: the Paris URL answers 200 with a JSON
body, every other URL answers 404. -/
def netDemo : String → HttpResponse := fun url =>
  if url = build_url "key0" "paris" then ⟨200, some (.str "paris-weather")⟩
  else ⟨404, none⟩

/-- Embedding of the accumulation loop: df starts empty and one mapped
row is appended per response, in order; a failing mapping aborts the
run, so the table exists only when every mapping succeeded. -/
def buildTable : List JValue → Option (List WeatherRow)
  | [] => some []
  | r :: rest =>
    (get_row_from_response r).bind fun row =>
      (buildTable rest).map fun t => row :: t

/-- Embedding of np.random.uniform(low, high) at one draw u from the
unit interval. -/
def uniformSample (low high u : ℚ) : ℚ := low + (high - low) * u

/-- The 1500 latitude samples, driven by a source u of unit-interval
draws. -/
def sampleLats (u : ℕ → ℚ) : List ℚ :=
  (List.range 1500).map fun i => uniformSample (-90) 90 (u i)

/-- The 1500 longitude samples, driven by a source u of unit-interval
draws. -/
def sampleLngs (u : ℕ → ℚ) : List ℚ :=
  (List.range 1500).map fun i => uniformSample (-180) 180 (u i)

/-- Embedding of the city-resolution loop: for each coordinate pair,
resolve the nearest city name and append it unless already seen. The
external citipy lookup is the function parameter nearest. -/
def generateCities (nearest : ℚ × ℚ → String) (lat_lngs : List (ℚ × ℚ)) :
    List String :=
  lat_lngs.foldl
    (fun cities p =>
      let city := nearest p
      if city ∈ cities then cities else cities ++ [city])
    []

/-- A concrete resolver for the witness: two coordinate regions, two
cities. -/
def nearestDemo : ℚ × ℚ → String := fun p =>
  if p.1 = 0 then "london" else "tokyo"

/-- Concrete coordinate pairs for the witness. -/
def demoPairs : List (ℚ × ℚ) := [(0, 0), (1, 1), (0, 5)]

/-- A character the CSV writer must protect by quoting: field
separator, quote, or record separator. -/
def isSpecialChar (c : Char) : Bool := c = ',' || c = '"' || c = '\n'

/-- Whether a field must be written quoted. -/
def needsQuoting (f : List Char) : Bool := f.any isSpecialChar

/-- Double every quote character, the CSV escape for quotes inside a
quoted field. -/
def escQuotes : List Char → List Char
  | [] => []
  | c :: cs => if c = '"' then '"' :: '"' :: escQuotes cs else c :: escQuotes cs

/-- Render one field: quoted with inner quotes doubled when it contains
a special character, verbatim otherwise. -/
def escapeField (f : String) : List Char :=
  if needsQuoting f.data then '"' :: (escQuotes f.data ++ ['"']) else f.data

/-- Render one CSV line: fields joined by commas. -/
def renderLine : List String → List Char
  | [] => []
  | [f] => escapeField f
  | f :: cells => escapeField f ++ ',' :: renderLine cells

/-- Render a CSV table: lines joined by newlines. -/
def renderCsv : List (List String) → List Char
  | [] => []
  | [r] => renderLine r
  | r :: rs => renderLine r ++ '\n' :: renderCsv rs

/-- Scanner mode of the CSV reader: outside quotes, inside quotes, or
inside quotes having just read a quote character. -/
inductive CsvMode where
  | plain
  | quoted
  | quotedQuote

/-- One-character-at-a-time CSV reader, modelling pd.read_csv's
splitting into records and fields with quote handling; acc is the
current field, row the fields finished on the current line. -/
def parseCsvAux : List Char → CsvMode → List Char → List String →
    List (List String)
  | [], _, acc, row => [row ++ [String.mk acc]]
  | c :: rest, .plain, acc, row =>
    if c = ',' then parseCsvAux rest .plain [] (row ++ [String.mk acc])
    else if c = '\n' then (row ++ [String.mk acc]) :: parseCsvAux rest .plain [] []
    else if c = '"' ∧ acc = [] then parseCsvAux rest .quoted [] row
    else parseCsvAux rest .plain (acc ++ [c]) row
  | c :: rest, .quoted, acc, row =>
    if c = '"' then parseCsvAux rest .quotedQuote acc row
    else parseCsvAux rest .quoted (acc ++ [c]) row
  | c :: rest, .quotedQuote, acc, row =>
    if c = '"' then parseCsvAux rest .quoted (acc ++ ['"']) row
    else if c = ',' then parseCsvAux rest .plain [] (row ++ [String.mk acc])
    else if c = '\n' then (row ++ [String.mk acc]) :: parseCsvAux rest .plain [] []
    else parseCsvAux rest .plain (acc ++ [c]) row

/-- Parse a CSV character stream into rows of fields. -/
def parseCsv (cs : List Char) : List (List String) :=
  parseCsvAux cs .plain [] []

/-- Cell text written for one value, modelling str() as used by
to_csv; numeric cells use the rational's textual form (the round trip
is insensitive to this choice, matching the spec's "modulo numeric
formatting"). -/
def cellOf : JValue → String
  | .str s => s
  | .num q => toString q
  | .obj _ => "dict"
  | .arr _ => "list"

/-- The header line to_csv writes: an unnamed index column then the
nine data columns. -/
def headerCells : List String :=
  ["", "City", "Cloudiness", "Country", "Date", "Humidity", "Lat", "Lng",
   "Max Temp", "Wind Speed"]

/-- The cells of one data line: the row index then the nine fields. -/
def rowCells (i : ℕ) (r : WeatherRow) : List String :=
  [toString i, cellOf r.city, cellOf r.cloudiness, cellOf r.country,
   cellOf r.date, cellOf r.humidity, cellOf r.lat, cellOf r.lng,
   cellOf r.max_temp, cellOf r.wind_speed]

/-- The full table as cells: header line then one line per row. -/
def tableCells (rows : List WeatherRow) : List (List String) :=
  headerCells :: rows.enum.map fun p => rowCells p.1 p.2

/-- Embedding of df.to_csv: the file content written for a table. -/
def to_csv (rows : List WeatherRow) : String :=
  String.mk (renderCsv (tableCells rows))

/-- Embedding of pd.read_csv: the rows of fields recovered from file
content. -/
def read_csv (s : String) : List (List String) :=
  parseCsv s.data

/-- Embedding of df2.plot.scatter(x=xcol, y=ycol): select the two
columns by header name and pair them row by row; none models a raised
error (missing column or short row), some ps a figure with points ps. -/
def scatterPoints (table : List (List String)) (xcol ycol : String) :
    Option (List (String × String)) :=
  match table with
  | [] => none
  | header :: rows =>
    (List.findIdx? (fun c => c = xcol) header).bind fun xi =>
    (List.findIdx? (fun c => c = ycol) header).bind fun yi =>
    rows.mapM fun r =>
      (r.get? xi).bind fun xv => (r.get? yi).map fun yv => (xv, yv)

/-! ## Helper lemmas -/

@[simp] theorem string_mk_data (s : String) : String.mk s.data = s := rfl

theorem bind_none_of {α β : Type} (x : Option α) (f : α → Option β)
    (h : ∀ a, f a = none) : x.bind f = none := by
  cases x <;> simp [h]

theorem get_row_factors (r : JValue) :
    get_row_from_response r =
      mkRowFromLookups (idx r "name") (idx2 r "clouds" "all")
        (idx2 r "sys" "country") (idx r "dt") (idx2 r "main" "humidity")
        (idx2 r "coord" "lat") (idx2 r "coord" "lon")
        (idx2 r "main" "temp_max") (idx2 r "wind" "speed") := rfl

/-! ## Claim theorems -/

/-- C2: on the synthetic Cairns response of the spec scenario, the row
mapper returns exactly the expected record. -/
theorem cairns_row_mapping :
    get_row_from_response cairnsResponse = some cairnsRow := rfl

/-- C10: the row mapper's output depends only on the nine lookups it
performs; two responses agreeing on those nine paths map to equal
results, whatever other fields they carry. -/
theorem row_mapper_depends_only_on_read_fields (r1 r2 : JValue)
    (h1 : idx r1 "name" = idx r2 "name")
    (h2 : idx2 r1 "clouds" "all" = idx2 r2 "clouds" "all")
    (h3 : idx2 r1 "sys" "country" = idx2 r2 "sys" "country")
    (h4 : idx r1 "dt" = idx r2 "dt")
    (h5 : idx2 r1 "main" "humidity" = idx2 r2 "main" "humidity")
    (h6 : idx2 r1 "coord" "lat" = idx2 r2 "coord" "lat")
    (h7 : idx2 r1 "coord" "lon" = idx2 r2 "coord" "lon")
    (h8 : idx2 r1 "main" "temp_max" = idx2 r2 "main" "temp_max")
    (h9 : idx2 r1 "wind" "speed" = idx2 r2 "wind" "speed") :
    get_row_from_response r1 = get_row_from_response r2 := by
  rw [get_row_factors r1, get_row_factors r2, h1, h2, h3, h4, h5, h6, h7, h8, h9]

/-- Witness for C10: the plain Cairns response and the one with extra
unread fields map to the same record. -/
theorem row_mapper_depends_only_on_read_fields_witness :
    get_row_from_response cairnsResponse =
      get_row_from_response cairnsResponseExtra :=
  row_mapper_depends_only_on_read_fields cairnsResponse cairnsResponseExtra
    rfl rfl rfl rfl rfl rfl rfl rfl rfl

/-- C6: if any one of the nine expected fields is absent (its lookup
path fails), the row mapper produces no record at all. -/
theorem row_mapper_missing_field (r : JValue)
    (h : idx r "name" = none ∨ idx2 r "clouds" "all" = none ∨
      idx2 r "sys" "country" = none ∨ idx r "dt" = none ∨
      idx2 r "main" "humidity" = none ∨ idx2 r "coord" "lat" = none ∨
      idx2 r "coord" "lon" = none ∨ idx2 r "main" "temp_max" = none ∨
      idx2 r "wind" "speed" = none) :
    get_row_from_response r = none := by
  rw [get_row_factors r]
  unfold mkRowFromLookups
  rcases h with h | h | h | h | h | h | h | h | h <;>
    (repeat' first
      | (rw [h]; rfl)
      | (apply bind_none_of; intro _))

/-- Witness for C6: the empty JSON object has no name field, so the
mapper fails on it. -/
theorem row_mapper_missing_field_witness :
    get_row_from_response (.obj []) = none :=
  row_mapper_missing_field (.obj []) (Or.inl rfl)

theorem string_data_append (s t : String) : (s ++ t).data = s.data ++ t.data := rfl

/-- C7: the fetcher builds its URL from the fixed endpoint, the API
key, and the city name with each space turned into a plus sign (so the
embedded query holds no space); it returns the parsed body exactly when
the status is 200, and an absent result on any other status. -/
theorem fetcher_url_and_status (net : String → HttpResponse)
    (api_key name : String) :
    ((build_url api_key name).data =
        urlBase.data ++ api_key.data ++ ("&q=").data ++
          (name.data.map fun c => if c = ' ' then '+' else c))
    ∧ (' ' ∉ (encode_city_name name).data)
    ∧ (∀ j : JValue, get_city_data net api_key name = .ok (some j) ↔
        ((net (build_url api_key name)).status_code = 200 ∧
          (net (build_url api_key name)).jsonBody = some j))
    ∧ ((net (build_url api_key name)).status_code ≠ 200 →
        get_city_data net api_key name = .ok none) := by
  refine ⟨?_, ?_, ?_, ?_⟩
  · simp [build_url, encode_city_name, string_data_append, List.append_assoc]
  · intro hmem
    simp only [encode_city_name, List.mem_map] at hmem
    obtain ⟨c, -, hc⟩ := hmem
    by_cases h : c = ' ' <;> simp [h] at hc
  · intro j
    by_cases h200 : (net (build_url api_key name)).status_code = 200
    · cases hb : (net (build_url api_key name)).jsonBody with
      | none => simp [get_city_data, h200, hb]
      | some j' => simp [get_city_data, h200, hb]
    · simp [get_city_data, h200]
  · intro hne
    simp [get_city_data, hne]

/-- Witness for C7: on the concrete network, the 200 city yields its
parsed body and the 404 city yields the absent result. -/
theorem fetcher_url_and_status_witness :
    get_city_data netDemo "key0" "paris" = .ok (some (.str "paris-weather"))
    ∧ get_city_data netDemo "key0" "atlantis" = .ok none := by
  constructor
  · exact ((fetcher_url_and_status netDemo "key0" "paris").2.2.1
      (.str "paris-weather")).2 ⟨by decide, rfl⟩
  · exact (fetcher_url_and_status netDemo "key0" "atlantis").2.2.2 (by decide)

/-- C1: in the fetch loop, a city whose response has status 200 and a
well-formed body contributes exactly one appended record, and a city
with a non-200 status contributes none, processing continuing with the
remaining cities either way. -/
theorem fetch_loop_status_filter (net : String → HttpResponse)
    (api_key city : String) (rest : List String) :
    (((net (build_url api_key city)).status_code = 200 →
      ∀ j : JValue, (net (build_url api_key city)).jsonBody = some j →
        fetchLoop net api_key (city :: rest) =
          (fetchLoop net api_key rest).map fun rs => j :: rs))
    ∧ ((net (build_url api_key city)).status_code ≠ 200 →
        fetchLoop net api_key (city :: rest) = fetchLoop net api_key rest) := by
  constructor
  · intro h200 j hj
    simp [fetchLoop, get_city_data, h200, hj]
  · intro hne
    simp [fetchLoop, get_city_data, hne]

/-- Witness for C1: a 404 city is skipped and the following 200 city
contributes its one record. -/
theorem fetch_loop_status_filter_witness :
    fetchLoop netDemo "key0" ["atlantis", "paris"] =
      .ok [.str "paris-weather"] := by
  have hskip := (fetch_loop_status_filter netDemo "key0" "atlantis"
    ["paris"]).2 (by decide)
  have happ := (fetch_loop_status_filter netDemo "key0" "paris" []).1
    (by decide) (.str "paris-weather") rfl
  rw [hskip, happ]
  rfl

/-- C8: whenever the accumulation loop completes, the table has exactly
one row per response, and the i-th row is the mapped record of the i-th
response. -/
theorem table_preserves_order (responses : List JValue)
    (t : List WeatherRow) (h : buildTable responses = some t) :
    t.length = responses.length ∧
      ∀ (i : ℕ) (hi : i < responses.length) (ht : i < t.length),
        get_row_from_response (responses.get ⟨i, hi⟩) = some (t.get ⟨i, ht⟩) := by
  induction responses generalizing t with
  | nil =>
    simp only [buildTable, Option.some.injEq] at h
    subst h
    exact ⟨rfl, fun i hi _ => absurd hi (by simp)⟩
  | cons r rs ih =>
    simp only [buildTable] at h
    cases hr : get_row_from_response r with
    | none => rw [hr] at h; simp at h
    | some row =>
      rw [hr] at h
      cases hb : buildTable rs with
      | none => rw [hb] at h; simp at h
      | some t' =>
        rw [hb] at h
        simp at h
        obtain ⟨hlen, hidx⟩ := ih t' hb
        subst h
        refine ⟨by simp [hlen], ?_⟩
        intro i hi ht
        cases i with
        | zero => simpa using hr
        | succ n =>
          have hi' : n < rs.length := by simp at hi; omega
          have ht' : n < t'.length := by simp at ht; omega
          exact hidx n hi' ht'

/-- Witness for C8: the one-response table has one row. -/
theorem table_preserves_order_witness :
    ([cairnsRow] : List WeatherRow).length =
      ([cairnsResponse] : List JValue).length :=
  (table_preserves_order [cairnsResponse] [cairnsRow] rfl).1

/-- C4: the accumulated city list holds no repeated name: entries at
two distinct positions differ. -/
theorem cities_list_nodup (nearest : ℚ × ℚ → String)
    (lat_lngs : List (ℚ × ℚ))
    (i j : Fin (generateCities nearest lat_lngs).length) (hij : i ≠ j) :
    (generateCities nearest lat_lngs).get i ≠
      (generateCities nearest lat_lngs).get j := by
  have hnd : ∀ (ps : List (ℚ × ℚ)) (acc : List String), acc.Nodup →
      (ps.foldl
        (fun cities p =>
          let city := nearest p
          if city ∈ cities then cities else cities ++ [city]) acc).Nodup := by
    intro ps
    induction ps with
    | nil => intro acc h; simpa using h
    | cons p ps ihp =>
      intro acc h
      simp only [List.foldl_cons]
      by_cases hm : nearest p ∈ acc
      · simpa [hm] using ihp acc h
      · have hn : (acc ++ [nearest p]).Nodup := by
          simp [List.nodup_append, h, hm]
        simpa [hm] using ihp _ hn
  have h2 : (generateCities nearest lat_lngs).Nodup := hnd lat_lngs [] (by simp)
  intro hget
  exact hij ((List.nodup_iff_injective_get.mp h2) hget)

/-- Witness for C4: on the concrete resolver, the first two accumulated
cities differ. -/
theorem cities_list_nodup_witness :
    (generateCities nearestDemo demoPairs).get ⟨0, by decide⟩ ≠
      (generateCities nearestDemo demoPairs).get ⟨1, by decide⟩ :=
  cities_list_nodup nearestDemo demoPairs ⟨0, by decide⟩ ⟨1, by decide⟩
    (by decide)

/-- C5: every sampled latitude lies in the closed interval from -90 to
90 and every sampled longitude in -180 to 180, for any unit-interval
random source. -/
theorem sampler_in_range (u : ℕ → ℚ) (hu : ∀ i, 0 ≤ u i ∧ u i < 1) :
    (∀ q ∈ sampleLats u, -90 ≤ q ∧ q ≤ 90) ∧
      (∀ q ∈ sampleLngs u, -180 ≤ q ∧ q ≤ 180) := by
  constructor
  · intro q hq
    simp only [sampleLats, List.mem_map] at hq
    obtain ⟨i, -, rfl⟩ := hq
    obtain ⟨h0, h1⟩ := hu i
    unfold uniformSample
    constructor <;> nlinarith
  · intro q hq
    simp only [sampleLngs, List.mem_map] at hq
    obtain ⟨i, -, rfl⟩ := hq
    obtain ⟨h0, h1⟩ := hu i
    unfold uniformSample
    constructor <;> nlinarith

/-- Witness for C5: the constant-zero source puts the first latitude
sample inside the range. -/
theorem sampler_in_range_witness :
    -90 ≤ uniformSample (-90) 90 0 ∧ uniformSample (-90) 90 0 ≤ 90 :=
  (sampler_in_range (fun _ => 0) (fun _ => by constructor <;> norm_num)).1
    (uniformSample (-90) 90 0)
    (List.mem_map.mpr ⟨0, List.mem_range.mpr (by decide), rfl⟩)

theorem string_data_mk (l : List Char) : (String.mk l).data = l := rfl

theorem parse_end (mode : CsvMode) (acc : List Char) (row : List String) :
    parseCsvAux [] mode acc row = [row ++ [String.mk acc]] := by
  cases mode <;> simp [parseCsvAux]

theorem step_plain_comma (rest : List Char) (acc : List Char) (row : List String) :
    parseCsvAux (',' :: rest) .plain acc row =
      parseCsvAux rest .plain [] (row ++ [String.mk acc]) := by
  simp [parseCsvAux]

theorem step_plain_nl (rest : List Char) (acc : List Char) (row : List String) :
    parseCsvAux ('\n' :: rest) .plain acc row =
      (row ++ [String.mk acc]) :: parseCsvAux rest .plain [] [] := by
  simp [parseCsvAux]

theorem step_plain_quote_open (rest : List Char) (row : List String) :
    parseCsvAux ('"' :: rest) .plain [] row = parseCsvAux rest .quoted [] row := by
  simp [parseCsvAux]

theorem step_plain_other (c : Char) (hc1 : c ≠ ',') (hc2 : c ≠ '\n')
    (hc3 : c ≠ '"') (rest : List Char) (acc : List Char) (row : List String) :
    parseCsvAux (c :: rest) .plain acc row =
      parseCsvAux rest .plain (acc ++ [c]) row := by
  simp [parseCsvAux, hc1, hc2, hc3]

theorem step_quoted_quote (rest : List Char) (acc : List Char) (row : List String) :
    parseCsvAux ('"' :: rest) .quoted acc row =
      parseCsvAux rest .quotedQuote acc row := by
  simp [parseCsvAux]

theorem step_quoted_other (c : Char) (hc : c ≠ '"') (rest : List Char)
    (acc : List Char) (row : List String) :
    parseCsvAux (c :: rest) .quoted acc row =
      parseCsvAux rest .quoted (acc ++ [c]) row := by
  simp [parseCsvAux, hc]

theorem step_qq_quote (rest : List Char) (acc : List Char) (row : List String) :
    parseCsvAux ('"' :: rest) .quotedQuote acc row =
      parseCsvAux rest .quoted (acc ++ ['"']) row := by
  simp [parseCsvAux]

theorem step_qq_comma (rest : List Char) (acc : List Char) (row : List String) :
    parseCsvAux (',' :: rest) .quotedQuote acc row =
      parseCsvAux rest .plain [] (row ++ [String.mk acc]) := by
  simp [parseCsvAux]

theorem step_qq_nl (rest : List Char) (acc : List Char) (row : List String) :
    parseCsvAux ('\n' :: rest) .quotedQuote acc row =
      (row ++ [String.mk acc]) :: parseCsvAux rest .plain [] [] := by
  simp [parseCsvAux]

theorem scan_plain : ∀ (l : List Char),
    (∀ c ∈ l, isSpecialChar c = false) →
    ∀ (acc rest : List Char) (row : List String),
      parseCsvAux (l ++ rest) .plain acc row =
        parseCsvAux rest .plain (acc ++ l) row := by
  intro l
  induction l with
  | nil => intro _ acc rest row; simp
  | cons c l ih =>
    intro hl acc rest row
    have hc := hl c (List.mem_cons_self c l)
    simp only [isSpecialChar, Bool.or_eq_false_iff,
      decide_eq_false_iff_not] at hc
    obtain ⟨⟨h1, h2⟩, h3⟩ := hc
    rw [List.cons_append, step_plain_other c h1 h3 h2,
      ih (fun d hd => hl d (List.mem_cons_of_mem c hd))]
    simp

theorem scan_quoted : ∀ (l : List Char) (acc rest : List Char)
    (row : List String),
    parseCsvAux (escQuotes l ++ rest) .quoted acc row =
      parseCsvAux rest .quoted (acc ++ l) row := by
  intro l
  induction l with
  | nil => intro acc rest row; simp [escQuotes]
  | cons c l ih =>
    intro acc rest row
    by_cases hc : c = '"'
    · subst hc
      simp only [escQuotes, if_pos]
      rw [List.cons_append, List.cons_append, step_quoted_quote,
        step_qq_quote, ih]
      simp
    · simp only [escQuotes, if_neg hc, List.cons_append]
      rw [step_quoted_other c hc, ih]
      simp

theorem not_special_of_not_quoting (f : String)
    (hq : ¬ needsQuoting f.data = true) :
    ∀ c ∈ f.data, isSpecialChar c = false := by
  intro c hcm
  cases hsc : isSpecialChar c
  · rfl
  · exact absurd (List.any_eq_true.mpr ⟨c, hcm, hsc⟩)
      (by simpa [needsQuoting] using hq)

theorem scan_field_comma (f : String) (rest : List Char) (row : List String) :
    parseCsvAux (escapeField f ++ ',' :: rest) .plain [] row =
      parseCsvAux rest .plain [] (row ++ [f]) := by
  by_cases hq : needsQuoting f.data
  · simp only [escapeField, if_pos hq, List.cons_append, List.append_assoc,
      List.singleton_append, List.nil_append]
    rw [step_plain_quote_open, scan_quoted, step_quoted_quote, step_qq_comma]
    simp
  · simp only [escapeField, if_neg hq]
    rw [scan_plain f.data (not_special_of_not_quoting f hq), step_plain_comma]
    simp

theorem scan_field_nl (f : String) (rest : List Char) (row : List String) :
    parseCsvAux (escapeField f ++ '\n' :: rest) .plain [] row =
      (row ++ [f]) :: parseCsvAux rest .plain [] [] := by
  by_cases hq : needsQuoting f.data
  · simp only [escapeField, if_pos hq, List.cons_append, List.append_assoc,
      List.singleton_append, List.nil_append]
    rw [step_plain_quote_open, scan_quoted, step_quoted_quote, step_qq_nl]
    simp
  · simp only [escapeField, if_neg hq]
    rw [scan_plain f.data (not_special_of_not_quoting f hq), step_plain_nl]
    simp

theorem scan_field_end (f : String) (row : List String) :
    parseCsvAux (escapeField f) .plain [] row = [row ++ [f]] := by
  by_cases hq : needsQuoting f.data
  · simp only [escapeField, if_pos hq]
    rw [show ('"' :: (escQuotes f.data ++ ['"']) : List Char) =
        '"' :: (escQuotes f.data ++ ['"']) from rfl,
      step_plain_quote_open, scan_quoted, step_quoted_quote, parse_end]
    simp
  · simp only [escapeField, if_neg hq]
    rw [show (f.data : List Char) = f.data ++ [] from (List.append_nil _).symm,
      scan_plain f.data (not_special_of_not_quoting f hq), parse_end]
    simp

theorem line_round_nl : ∀ (cells : List String), cells ≠ [] →
    ∀ (rest : List Char) (row : List String),
      parseCsvAux (renderLine cells ++ '\n' :: rest) .plain [] row =
        (row ++ cells) :: parseCsvAux rest .plain [] [] := by
  intro cells
  induction cells with
  | nil => intro h; exact absurd rfl h
  | cons f cs ih =>
    intro _ rest row
    cases cs with
    | nil =>
      simp only [renderLine]
      rw [scan_field_nl]
    | cons f2 cs2 =>
      simp only [renderLine, List.append_assoc, List.cons_append]
      rw [scan_field_comma, ih (by simp) rest (row ++ [f])]
      simp

theorem line_round_end : ∀ (cells : List String), cells ≠ [] →
    ∀ (row : List String),
      parseCsvAux (renderLine cells) .plain [] row = [row ++ cells] := by
  intro cells
  induction cells with
  | nil => intro h; exact absurd rfl h
  | cons f cs ih =>
    intro _ row
    cases cs with
    | nil =>
      simp only [renderLine]
      rw [scan_field_end]
    | cons f2 cs2 =>
      simp only [renderLine, List.append_assoc, List.cons_append]
      rw [scan_field_comma, ih (by simp) (row ++ [f])]
      simp

theorem table_round : ∀ (table : List (List String)),
    (∀ r ∈ table, r ≠ []) → table ≠ [] →
    parseCsv (renderCsv table) = table := by
  intro table
  induction table with
  | nil => intro _ h; exact absurd rfl h
  | cons r ts ih =>
    intro hr _
    cases ts with
    | nil =>
      simp only [renderCsv, parseCsv]
      rw [line_round_end r (hr r (by simp))]
      simp
    | cons r2 ts2 =>
      simp only [renderCsv, parseCsv]
      rw [line_round_nl r (hr r (by simp))]
      rw [show parseCsvAux (renderCsv (r2 :: ts2)) .plain [] [] =
          parseCsv (renderCsv (r2 :: ts2)) from rfl]
      rw [ih (fun x hx => hr x (by simp [hx])) (by simp)]
      simp

/-- C3: writing any in-memory table to CSV and reading it back
recovers the header line and every data line cell for cell, hence the
same number of rows and the same field values. -/
theorem csv_round_trip (rows : List WeatherRow) :
    read_csv (to_csv rows) = tableCells rows ∧
      (read_csv (to_csv rows)).length = rows.length + 1 := by
  have hne : ∀ r ∈ tableCells rows, r ≠ [] := by
    intro r hr
    simp only [tableCells, List.mem_cons, List.mem_map] at hr
    rcases hr with h | ⟨p, -, h⟩
    · subst h; simp [headerCells]
    · subst h; simp [rowCells]
  have h := table_round (tableCells rows) hne (by simp [tableCells])
  have hrt : read_csv (to_csv rows) = tableCells rows := by
    simpa [read_csv, to_csv, string_data_mk] using h
  exact ⟨hrt, by rw [hrt]; simp [tableCells]⟩

/-- C9: the empty dataset still writes a CSV holding exactly the header
line, and each of the four scatter plots over the re-read empty table
succeeds with zero points. -/
theorem empty_dataset_header_only :
    to_csv [] = String.mk (renderLine headerCells) ∧
    read_csv (to_csv []) = [headerCells] ∧
    scatterPoints (read_csv (to_csv [])) "Lat" "Max Temp" = some [] ∧
    scatterPoints (read_csv (to_csv [])) "Lat" "Humidity" = some [] ∧
    scatterPoints (read_csv (to_csv [])) "Lat" "Cloudiness" = some [] ∧
    scatterPoints (read_csv (to_csv [])) "Lat" "Wind Speed" = some [] := by
  have h : read_csv (to_csv []) = [headerCells] := by
    simpa [read_csv, to_csv, string_data_mk] using
      table_round [headerCells] (by simp [headerCells]) (by simp)
  refine ⟨rfl, h, ?_, ?_, ?_, ?_⟩ <;> rw [h] <;> rfl
